import Mathlib

/-!
Shallow embedding of the Device Supervisor (`backend/devices.py`, class
`MassiqueManager`, plus the control surface `backend/app.py`, class `Api`)
of the MFC supervision program.

Modelling conventions:
* Python floats are modelled as `Rat` (truthiness of a float is `≠ 0`).
* Timestamps (`datetime.datetime.now()`) are modelled as a `Nat` parameter
  threaded into the operations that record history points.
* The Brooks protocol driver (`sprotocol.device.mfc`) is an external
  collaborator; it is modelled as an oracle `Driver` whose operations either
  raise (`none` at the outer `Option`) or return a decoded value.  A driver
  read that Python would see as falsy (`None`) is `some none`.
* Python exception semantics: every embedded operation returns
  `Except PyErr α × MState × List Event`; the returned state contains all
  mutations performed before the exception (Python mutations persist), and
  the event list is the trace of protocol exchanges / transport actions
  attempted, in order.
-/

/-- The per-channel record, embedding the `DeviceState` dataclass of
`backend/devices.py`. -/
structure Chan where
  index : Nat := 0
  tag : String := ""
  active : Bool := false
  selected_gas : Option Nat := none
  available_gases : List String := []
  gas_map : List (String × Nat) := []
  consigne : Rat := 0
  full_scale_value : Rat := 0
  mesure : Rat × String := (0, "N/A")
  temperature : Rat × String := (0, "N/A")
  full_scale : Rat × String := (0, "N/A")
  totalization_value : Rat × String := (0, "N/A")
  valve_command : String := "N/A"
  ramp_active : Bool := false
  ramp_time_s : Rat := 1
  measurements : List (Rat × Nat) := []
  consigne_points : List (Rat × Nat) := []
  deriving Repr, DecidableEq, Inhabited

/-- Manager state, embedding the mutable fields of `MassiqueManager`:
the open serial port (`serial_port`, reduced to whether an open session
exists), the channel array `devices`, the protocol bindings `_mfc_objs`
(reduced to whether a binding is present), and whether the polling thread
runs. -/
structure MState where
  maxDevices : Nat := 12
  serialOpen : Bool := false
  devices : List Chan := []
  mfcObjs : List Bool := []
  polling : Bool := false
  deriving Repr, DecidableEq, Inhabited

/-- Errors an operation can raise, embedding the Python exceptions:
`IndexError` from `_get`, `RuntimeError("Port série non connecté")`,
`RuntimeError("Device OFF")` from `_need_mfc`, `RuntimeError` from
`open_serial_port`, and any exception escaping a driver call. -/
inductive PyErr where
  | indexError
  | notConnected
  | deviceOff
  | transportError
  | driverErr
  deriving Repr, DecidableEq

/-- Trace events: one per protocol exchange attempted on the bus (named after
the `sprotocol` driver methods called in `devices.py`) plus the transport
close. -/
inductive Event where
  | getAddress
  | selectGaz (id : Nat)
  | selectNom (id : Nat)
  | writeTotalizerControl (mode : Nat)
  | writeRampControl (mode : Nat)
  | writeLinearRampValue (t : Rat)
  | setVanne (cmd : Nat)
  | redVanne
  | writeSetpoint (perc : Rat)
  | readFlowRate (g : Nat)
  | readDynamic
  | readFullScale (g : Nat)
  | readTotalizer
  | closePort
  deriving Repr, DecidableEq

/-- Oracle for the external Brooks driver: for each operation, either the
result of a successful exchange or a raised exception (`none` outer layer for
operations that can return a decoded value; `Bool` = "did not raise" for bare
writes).  `redVanne`'s `some none` is a falsy read (Python `None`/empty),
which the code replaces by `"N/A"`. -/
structure Driver where
  getAddress : Bool := true
  selectGaz : Nat → Bool := fun _ => true
  selectNom : Nat → Option String := fun _ => some ""
  writeTotalizerControl : Nat → Bool := fun _ => true
  writeRampControl : Nat → Bool := fun _ => true
  writeLinearRampValue : Rat → Bool := fun _ => true
  setVanne : Nat → Bool := fun _ => true
  redVanne : Option (Option String) := some none
  writeSetpoint : Rat → Bool := fun _ => true
  readFlowRate : Nat → Option (Option (Rat × String)) := fun _ => some none
  readDynamic : Option (Option (Rat × String)) := some none
  readFullScale : Nat → Option (Option (Rat × String)) := fun _ => some none
  readTotalizer : Option (Option (Rat × String)) := some none

/-- A value passed from JavaScript for a numeric parameter: either something
`float()` can parse, or not (`nonNum`, on which `float()` raises). -/
inductive PyVal where
  | num (v : Rat)
  | nonNum
  deriving Repr, DecidableEq

/-- `float(x)`: `some` the parsed value, `none` when it raises. -/
def floatParse : PyVal → Option Rat
  | .num v => some v
  | .nonNum => none

/-- Channel accessor: `self.devices[idx]` (total, with a default out of
range; operations check the range first via `_get`). -/
def MState.chan (s : MState) (idx : Nat) : Chan :=
  s.devices.getD idx default

/-- Write back channel `idx` (Python mutates the record in place). -/
def setChan (s : MState) (idx : Nat) (c : Chan) : MState :=
  { s with devices := s.devices.set idx c }

/-- `_need_mfc` succeeds iff the channel is active and a binding is stored:
`if not d.active or mfc is None: raise RuntimeError("Device OFF")`. -/
def needMfcOk (s : MState) (idx : Nat) : Bool :=
  (s.chan idx).active && s.mfcObjs.getD idx false

/-- The history append idiom of `devices.py`:
`(lst + [(value, now)])[-3600:]` — append then keep the last 3600 entries. -/
def pushCapped (h : List (Rat × Nat)) (x : Rat × Nat) : List (Rat × Nat) :=
  (h ++ [x]).drop ((h ++ [x]).length - 3600)

/-- `MassiqueManager.send_consigne` (devices.py:188-213): range check, device
check, `float()` parse (silently ignoring unparsable input), clamp to
`[0, full_scale_value]` when the full scale is known else `[0, ∞)`, store the
clamped setpoint, and — only when the full scale is known — issue the
percentage setpoint write and append to the setpoint history. -/
def send_consigne (drv : Driver) (s : MState) (idx : Nat) (v : PyVal)
    (now : Nat) : Except PyErr Unit × MState × List Event :=
  if idx < s.maxDevices then
    if needMfcOk s idx then
      match floatParse v with
      | none => (.ok (), s, [])
      | some c0 =>
        let d := s.chan idx
        let c1 := if c0 < 0 then 0 else c0
        let c2 := if d.full_scale_value ≠ 0 ∧ d.full_scale_value < c1 then
            d.full_scale_value else c1
        let d := { d with consigne := c2 }
        let s1 := setChan s idx d
        if d.full_scale_value = 0 then (.ok (), s1, [])
        else
          let perc := c2 / d.full_scale_value * 100
          if drv.writeSetpoint perc then
            let d := { d with
              consigne_points := pushCapped d.consigne_points (c2, now) }
            (.ok (), setChan s1 idx d, [.writeSetpoint perc])
          else (.error .driverErr, s1, [.writeSetpoint perc])
    else (.error .deviceOff, s, [])
  else (.error .indexError, s, [])

/-- Python `x or "N/A"` on a valve-label read: a raise-free read that is
falsy (`None` or the empty string) becomes `"N/A"`. -/
def orNA : Option String → String
  | none => "N/A"
  | some l => if l = "" then "N/A" else l

/-- The action-string table of `MassiqueManager.set_vanne`:
`{"Ouverture": 1, "Fermeture": 2, "Régulation": 0}.get(action)`. -/
def vanneCmd (action : String) : Option Nat :=
  if action = "Ouverture" then some 1
  else if action = "Fermeture" then some 2
  else if action = "Régulation" then some 0
  else none

/-- `MassiqueManager.set_vanne` (devices.py:215-224): unknown action is a
no-op; otherwise write the valve command then read the valve label back into
`valve_command`, defaulting to `"N/A"` on a falsy read. -/
def set_vanne (drv : Driver) (s : MState) (idx : Nat) (action : String) :
    Except PyErr Unit × MState × List Event :=
  if idx < s.maxDevices then
    if needMfcOk s idx then
      match vanneCmd action with
      | none => (.ok (), s, [])
      | some cmd =>
        if drv.setVanne cmd then
          match drv.redVanne with
          | none => (.error .driverErr, s, [.setVanne cmd, .redVanne])
          | some r =>
            (.ok (),
              setChan s idx { s.chan idx with valve_command := orNA r },
              [.setVanne cmd, .redVanne])
        else (.error .driverErr, s, [.setVanne cmd])
    else (.error .deviceOff, s, [])
  else (.error .indexError, s, [])

/-- `MassiqueManager._reset_data` (devices.py:365-372): telemetry fields back
to the `(0, "N/A")` unknown sentinel, both history buffers cleared.  (It does
not touch `selected_gas`, `available_gases`, `gas_map`, `full_scale_value`,
`consigne` or the ramp fields.) -/
def reset_data (d : Chan) : Chan :=
  { d with
    mesure := (0, "N/A")
    temperature := (0, "N/A")
    full_scale := (0, "N/A")
    valve_command := "N/A"
    measurements := []
    consigne_points := []
    totalization_value := (0, "N/A") }

/-- The unconditional epilogue of `MassiqueManager.deactivate`
(devices.py:177-179): clear `active`, drop the binding, reset
telemetry/history. -/
def deactivate_fin (s : MState) (idx : Nat) : MState :=
  { setChan s idx (reset_data { s.chan idx with active := false }) with
    mfcObjs := s.mfcObjs.set idx false }

/-- `MassiqueManager.deactivate` (devices.py:166-179), continued: when active
with a binding, best-effort setpoint-to-0 followed (only if that did not
raise) by a ramp-disable write, all failures swallowed; then unconditionally
finalise via `deactivate_fin`. -/
def deactivate (drv : Driver) (s : MState) (idx : Nat) (now : Nat) :
    Except PyErr Unit × MState × List Event :=
  if idx < s.maxDevices then
    if (s.chan idx).active && s.mfcObjs.getD idx false then
      match send_consigne drv s idx (.num 0) now with
      | (.ok _, s1, e1) =>
        (.ok (), deactivate_fin s1 idx, e1 ++ [.writeRampControl 0])
      | (.error _, s1, e1) => (.ok (), deactivate_fin s1 idx, e1)
    else (.ok (), deactivate_fin s idx, [])
  else (.error .indexError, s, [])

/-- Python dict assignment `m[k] = v`: overwrite the existing key, else
append. -/
def dictSet (m : List (String × Nat)) (k : String) (v : Nat) :
    List (String × Nat) :=
  if (m.lookup k).isSome then
    m.map (fun p => if p.1 = k then (k, v) else p)
  else m ++ [(k, v)]

/-- One iteration of the gas-discovery loop in `MassiqueManager.activate`
(devices.py:132-142): `Select_gaz(gaz_id)` then `Select_nom(gaz_id)`; any
failure is swallowed and the identifier skipped; a nonempty decoded name is
appended to the menu and mapped to its identifier.  (The byte-level
`split(b"\x00")[0].decode(...)` belongs to the driver boundary: `selectNom`
yields the decoded name directly.) -/
def discoverGas (drv : Driver) (d : Chan) (gazId : Nat) : Chan × List Event :=
  if drv.selectGaz gazId then
    match drv.selectNom gazId with
    | none => (d, [.selectGaz gazId, .selectNom gazId])
    | some name =>
      if name ≠ "" then
        ({ d with
            available_gases := d.available_gases ++ [name]
            gas_map := dictSet d.gas_map name gazId },
          [.selectGaz gazId, .selectNom gazId])
      else (d, [.selectGaz gazId, .selectNom gazId])
  else (d, [.selectGaz gazId])

/-- `MassiqueManager.apply_ramp_settings` (devices.py:233-250): store the
ramp flag, parse the duration (defaulting to 1.0 on a parse failure and
flooring nonpositive values to 1.0), then either disable ramp control or
enable linear up/down mode and write the duration. -/
def apply_ramp_settings (drv : Driver) (s : MState) (idx : Nat)
    (rampActive : Bool) (rampTime : PyVal) :
    Except PyErr Unit × MState × List Event :=
  if idx < s.maxDevices then
    if needMfcOk s idx then
      let ts0 := (floatParse rampTime).getD 1
      let ts := if ts0 ≤ 0 then 1 else ts0
      let s1 := setChan s idx
        { s.chan idx with ramp_active := rampActive, ramp_time_s := ts }
      if rampActive then
        if drv.writeRampControl 4 then
          if drv.writeLinearRampValue ts then
            (.ok (), s1, [.writeRampControl 4, .writeLinearRampValue ts])
          else
            (.error .driverErr, s1,
              [.writeRampControl 4, .writeLinearRampValue ts])
        else (.error .driverErr, s1, [.writeRampControl 4])
      else
        if drv.writeRampControl 0 then
          (.ok (), s1, [.writeRampControl 0])
        else (.error .driverErr, s1, [.writeRampControl 0])
    else (.error .deviceOff, s, [])
  else (.error .indexError, s, [])

/-- `MassiqueManager.select_gas` (devices.py:252-261): unknown gas name is a
no-op; otherwise issue the gas-select write and update `selected_gas`. -/
def select_gas (drv : Driver) (s : MState) (idx : Nat) (gasName : String) :
    Except PyErr Unit × MState × List Event :=
  if idx < s.maxDevices then
    if needMfcOk s idx then
      match (s.chan idx).gas_map.lookup gasName with
      | none => (.ok (), s, [])
      | some gazId =>
        if drv.selectGaz gazId then
          (.ok (),
            setChan s idx { s.chan idx with selected_gas := some gazId },
            [.selectGaz gazId])
        else (.error .driverErr, s, [.selectGaz gazId])
    else (.error .deviceOff, s, [])
  else (.error .indexError, s, [])

/-- `MassiqueManager.reset_totalization` (devices.py:226-231): issue the
totalizer-reset write, then zero the stored value keeping the last unit. -/
def reset_totalization (drv : Driver) (s : MState) (idx : Nat) :
    Except PyErr Unit × MState × List Event :=
  if idx < s.maxDevices then
    if needMfcOk s idx then
      if drv.writeTotalizerControl 2 then
        let d := s.chan idx
        (.ok (),
          setChan s idx
            { d with totalization_value := (0, d.totalization_value.2) },
          [.writeTotalizerControl 2])
      else (.error .driverErr, s, [.writeTotalizerControl 2])
    else (.error .deviceOff, s, [])
  else (.error .indexError, s, [])

/-- `MassiqueManager.set_tag` (devices.py:182-184): truncate/pad the label to
8 characters and store it; does not touch the live binding. -/
def set_tag (s : MState) (idx : Nat) (tag : String) :
    Except PyErr Unit × MState × List Event :=
  if idx < s.maxDevices then
    (.ok (),
      setChan s idx
        { s.chan idx with tag := (tag.take 8).pushn '_' (8 - tag.length) },
      [])
  else (.error .indexError, s, [])

/-- The gas-discovery loop of `MassiqueManager.activate` (devices.py:132-142)
over gas identifiers 1 to 4, threading the channel record and the event
trace. -/
def discoverAll (drv : Driver) (d : Chan) : Chan × List Event :=
  [1, 2, 3, 4].foldl
    (fun (acc : Chan × List Event) gid =>
      let r := discoverGas drv acc.1 gid
      (r.1, acc.2 ++ r.2)) (d, [])

/-- The `except` clause of `MassiqueManager.activate` (devices.py:160-164):
clear `active` and the binding, keep every other mutation made so far
(Python state mutation persists across a raise), and re-raise. -/
def rollbackA (s : MState) (idx : Nat) (evs : List Event) :
    Except PyErr Unit × MState × List Event :=
  (.error .driverErr,
    { setChan s idx { s.chan idx with active := false } with
      mfcObjs := s.mfcObjs.set idx false }, evs)

/-- The tail of `MassiqueManager.activate` after gas discovery and
totalization enable (devices.py:153-158): apply the stored ramp
configuration, set the valve to regulation, send setpoint 0; any failure
reaches the `except` clause (`rollbackA`). -/
def errOf : Except PyErr Unit → Bool
  | .error _ => true
  | .ok _ => false

def activate_tail (drv : Driver) (s : MState) (idx : Nat) (now : Nat)
    (evs : List Event) : Except PyErr Unit × MState × List Event :=
  let r1 := apply_ramp_settings drv s idx (s.chan idx).ramp_active
    (.num (s.chan idx).ramp_time_s)
  if errOf r1.1 then rollbackA r1.2.1 idx (evs ++ r1.2.2)
  else
    let r2 := set_vanne drv r1.2.1 idx "Régulation"
    if errOf r2.1 then rollbackA r2.2.1 idx (evs ++ r1.2.2 ++ r2.2.2)
    else
      let r3 := send_consigne drv r2.2.1 idx (.num 0) now
      if errOf r3.1 then
        rollbackA r3.2.1 idx (evs ++ r1.2.2 ++ r2.2.2 ++ r3.2.2)
      else (.ok (), r3.2.1, evs ++ r1.2.2 ++ r2.2.2 ++ r3.2.2)

/-- State after devices.py:126-127 (`d.active = True`, binding stored). -/
def activate_s1 (s : MState) (idx : Nat) : MState :=
  { setChan s idx { s.chan idx with active := true } with
    mfcObjs := s.mfcObjs.set idx true }

/-- Channel record after devices.py:130-131 (menus cleared), before the
gas-discovery loop. -/
def activate_d0 (s : MState) (idx : Nat) : Chan :=
  { (activate_s1 s idx).chan idx with available_gases := [], gas_map := [] }

/-- Channel record after the gas-discovery loop. -/
def activate_d1 (drv : Driver) (s : MState) (idx : Nat) : Chan :=
  (discoverAll drv (activate_d0 s idx)).1

/-- State after the gas-discovery loop is written back. -/
def activate_s2 (drv : Driver) (s : MState) (idx : Nat) : MState :=
  setChan (activate_s1 s idx) idx (activate_d1 drv s idx)

/-- State after devices.py:144-148 (first discovered gas selected). -/
def activate_s3 (drv : Driver) (s : MState) (idx gid : Nat) : MState :=
  setChan (activate_s2 drv s idx) idx
    { activate_d1 drv s idx with selected_gas := some gid }

/-- `MassiqueManager.activate` (devices.py:114-164): requires an open
session; probes the bus address, marks the channel active and stores the
binding, discovers the gas menu over identifiers 1-4 (per-identifier failures
swallowed), selects the first discovered gas, enables totalization, applies
the stored ramp configuration, sets the valve to regulation and the setpoint
to 0.  Any uncaught failure rolls `active` back to `false`, drops the
binding, and re-raises (`rollbackA`). -/
def activate (drv : Driver) (s : MState) (idx : Nat) (now : Nat) :
    Except PyErr Unit × MState × List Event :=
  if idx < s.maxDevices then
    if s.serialOpen then
      if drv.getAddress then
        let d1 := activate_d1 drv s idx
        let evs := Event.getAddress :: (discoverAll drv (activate_d0 s idx)).2
        match d1.available_gases.head? with
        | some first =>
          let gid := (d1.gas_map.lookup first).getD 0
          if drv.selectGaz gid then
            if drv.writeTotalizerControl 1 then
              activate_tail drv (activate_s3 drv s idx gid) idx now
                (evs ++ [.selectGaz gid, .writeTotalizerControl 1])
            else rollbackA (activate_s3 drv s idx gid) idx
              (evs ++ [.selectGaz gid, .writeTotalizerControl 1])
          else rollbackA (activate_s2 drv s idx) idx
            (evs ++ [.selectGaz gid])
        | none =>
          if drv.writeTotalizerControl 1 then
            activate_tail drv (activate_s2 drv s idx) idx now
              (evs ++ [.writeTotalizerControl 1])
          else rollbackA (activate_s2 drv s idx) idx
            (evs ++ [.writeTotalizerControl 1])
      else
        -- address probe raised: caught by except, rollback, re-raise
        rollbackA s idx [.getAddress]
    else (.error .notConnected, s, [])
  else (.error .indexError, s, [])

/-- `MassiqueManager.disconnect` (devices.py:99-111): stop polling, close the
transport if one is open (close failures swallowed), clear the session
handle, then deactivate every channel and drop every binding. -/
def disconnect (s : MState) : MState × List Event :=
  let evs := if s.serialOpen then [Event.closePort] else []
  ({ s with
      polling := false
      serialOpen := false
      devices := s.devices.map (fun d => { d with active := false })
      mfcObjs := s.mfcObjs.map (fun _ => false) },
    evs)

/-- `MassiqueManager.connect` (devices.py:94-97): implicit disconnect, then
open the named port (raising `TransportError` when the open fails) and start
the polling thread.  `openOk` models whether `open_serial_port` succeeds. -/
def connect (openOk : Bool) (s : MState) :
    Except PyErr Unit × MState × List Event :=
  let s1 := (disconnect s).1
  if openOk then
    (.ok (), { s1 with serialOpen := true, polling := true },
      (disconnect s).2)
  else (.error .transportError, s1, (disconnect s).2)

/-- The gas-defaulting step of `MassiqueManager._poll_one`
(devices.py:292-297): when no gas is selected, fall back to the first
discovered gas if one exists. -/
def poll_d (s : MState) (idx : Nat) : Chan :=
  if (s.chan idx).selected_gas.isNone then
    match (s.chan idx).available_gases.head? with
    | some g0 =>
      { s.chan idx with selected_gas := (s.chan idx).gas_map.lookup g0 }
    | none => s.chan idx
  else s.chan idx

/-- State of `_poll_one` after the gas-defaulting mutation is written
back. -/
def poll_s1 (s : MState) (idx : Nat) : MState :=
  setChan s idx (poll_d s idx)

/-- The telemetry/history update of `_poll_one` (devices.py:307-321):
store the five read results (`full_scale_value := float(fs[0] or 0)`, a
no-op over `Rat`), then append `(measured, now)` and `(consigne, now)` to
the bounded histories. -/
def poll_upd (d : Chan) (fr tmp fs tot : Rat × String) (valve : String)
    (now : Nat) : Chan :=
  { d with
    mesure := fr
    temperature := tmp
    full_scale_value := fs.1
    full_scale := fs
    totalization_value := tot
    valve_command := valve
    measurements := pushCapped d.measurements (fr.1, now)
    consigne_points := pushCapped d.consigne_points (d.consigne, now) }

/-- State of `_poll_one` after the telemetry/history update. -/
def poll_s2 (s : MState) (idx : Nat) (fr tmp fs tot : Rat × String)
    (valve : String) (now : Nat) : MState :=
  setChan (poll_s1 s idx) idx (poll_upd (poll_d s idx) fr tmp fs tot valve now)

/-- `MassiqueManager._poll_one` (devices.py:288-329): default the selected
gas to the first discovered gas when unset (skipping the channel when still
none); perform the five-read exchange (each falsy read replaced by the
unknown sentinel); store the telemetry, learn the full scale, append to both
histories; and when the full scale is known and a nonzero setpoint is stored,
re-issue the setpoint write, swallowing its failure. -/
def poll_one (drv : Driver) (s : MState) (idx : Nat) (now : Nat) :
    Except PyErr Unit × MState × List Event :=
  if idx < s.maxDevices then
    if needMfcOk s idx then
      match (poll_d s idx).selected_gas with
      | none => (.ok (), poll_s1 s idx, [])
      | some g =>
        match drv.readFlowRate g with
        | none => (.error .driverErr, poll_s1 s idx, [.readFlowRate g])
        | some fr0 =>
          match drv.readDynamic with
          | none =>
            (.error .driverErr, poll_s1 s idx,
              [.readFlowRate g, .readDynamic])
          | some tmp0 =>
            match drv.readFullScale g with
            | none =>
              (.error .driverErr, poll_s1 s idx,
                [.readFlowRate g, .readDynamic, .readFullScale g])
            | some fs0 =>
              match drv.readTotalizer with
              | none =>
                (.error .driverErr, poll_s1 s idx,
                  [.readFlowRate g, .readDynamic, .readFullScale g,
                    .readTotalizer])
              | some tot0 =>
                match drv.redVanne with
                | none =>
                  (.error .driverErr, poll_s1 s idx,
                    [.readFlowRate g, .readDynamic, .readFullScale g,
                      .readTotalizer, .redVanne])
                | some valve0 =>
                  let evs : List Event :=
                    [.readFlowRate g, .readDynamic, .readFullScale g,
                      .readTotalizer, .redVanne]
                  let fr := fr0.getD (0, "N/A")
                  let fs := fs0.getD (0, "N/A")
                  let s2 := poll_s2 s idx fr (tmp0.getD (0, "N/A")) fs
                    (tot0.getD (0, "N/A")) (orNA valve0) now
                  if fs.1 ≠ 0 ∧ (poll_d s idx).consigne ≠ 0 then
                    -- retry of the deferred setpoint; failure swallowed
                    let r := send_consigne drv s2 idx
                      (.num (poll_d s idx).consigne) now
                    (.ok (), r.2.1, evs ++ r.2.2)
                  else (.ok (), s2, evs)
    else (.error .deviceOff, s, [])
  else (.error .indexError, s, [])

/-- The body of `MassiqueManager._poll_loop` for one channel index
(devices.py:278-285): skip inactive channels; run `_poll_one`; on any raised
error reset that channel's telemetry/history and continue. -/
def poll_step (drv : Driver) (now : Nat) (s : MState) (i : Nat) :
    MState × List Event :=
  if (s.chan i).active then
    match poll_one drv s i now with
    | (.ok _, s', e') => (s', e')
    | (.error _, s', e') => (setChan s' i (reset_data (s'.chan i)), e')
  else (s, [])

/-- One full cycle of `MassiqueManager._poll_loop` (devices.py:276-286):
visit every channel index in order, isolating per-channel failures. -/
def poll_cycle (drv : Driver) (s : MState) (now : Nat) :
    MState × List Event :=
  (List.range s.maxDevices).foldl
    (fun acc i =>
      let (s', e') := poll_step drv now acc.1 i
      (s', acc.2 ++ e'))
    (s, [])

/-- The per-channel view built by `MassiqueManager.snapshot`
(devices.py:331-350). -/
structure DevView where
  index : Nat
  tag : String
  active : Bool
  consigne : Rat
  full_scale_value : Rat
  mesure : Rat × String
  total : Rat × String
  valve : String
  ramp_active : Bool
  ramp_time_s : Rat
  gases : List String
  selected_gas : Option Nat
  deriving Repr, DecidableEq

/-- The snapshot dictionary `{connected, devices}` of
`MassiqueManager.snapshot`. -/
structure Snap where
  connected : Bool
  devices : List DevView
  deriving Repr, DecidableEq

/-- One entry of the `devices` list of the snapshot. -/
def devView (d : Chan) : DevView :=
  { index := d.index
    tag := d.tag
    active := d.active
    consigne := d.consigne
    full_scale_value := d.full_scale_value
    mesure := d.mesure
    total := d.totalization_value
    valve := d.valve_command
    ramp_active := d.ramp_active
    ramp_time_s := d.ramp_time_s
    gases := d.available_gases
    selected_gas := d.selected_gas }

/-- `MassiqueManager.snapshot` (devices.py:331-350): pure view of the
connection flag and every channel record. -/
def snapshot (s : MState) : Snap :=
  { connected := s.serialOpen, devices := s.devices.map devView }

/-- Return value of an `Api` method in `backend/app.py`: either the snapshot
dictionary or a bare boolean. -/
inductive ApiRet where
  | snap (v : Snap)
  | boolRet (b : Bool)
  deriving Repr, DecidableEq

/-- The `return self.mgr.snapshot()` idiom shared by the mutating `Api`
methods of `app.py`: on normal return of the manager call, return the fresh
snapshot; a raised error propagates to JavaScript. -/
def apiWrap (r : Except PyErr Unit × MState × List Event) :
    Except PyErr ApiRet × MState :=
  match r with
  | (.ok _, s', _) => (.ok (.snap (snapshot s')), s')
  | (.error e, s', _) => (.error e, s')

/-- `Api.connect` (app.py:38-40). -/
def api_connect (openOk : Bool) (s : MState) :
    Except PyErr ApiRet × MState :=
  apiWrap (connect openOk s)

/-- `Api.disconnect` (app.py:42-44). -/
def api_disconnect (s : MState) : Except PyErr ApiRet × MState :=
  (.ok (.snap (snapshot (disconnect s).1)), (disconnect s).1)

/-- `Api.set_tag` (app.py:50-56): persists the label (settings layer, out of
scope), forwards to `MassiqueManager.set_tag`, and returns the bare boolean
`True` — not a snapshot. -/
def api_set_tag (s : MState) (idx : Nat) (tag : String) :
    Except PyErr ApiRet × MState :=
  match set_tag s idx tag with
  | (.ok _, s', _) => (.ok (.boolRet true), s')
  | (.error e, s', _) => (.error e, s')

/-- `Api.toggle_device` (app.py:58-63). -/
def api_toggle (drv : Driver) (s : MState) (idx : Nat) (turnOn : Bool)
    (now : Nat) : Except PyErr ApiRet × MState :=
  if turnOn then apiWrap (activate drv s idx now)
  else apiWrap (deactivate drv s idx now)

/-- `Api.set_consigne` (app.py:65-67). -/
def api_set_consigne (drv : Driver) (s : MState) (idx : Nat) (v : PyVal)
    (now : Nat) : Except PyErr ApiRet × MState :=
  apiWrap (send_consigne drv s idx v now)

/-- `Api.set_vanne` (app.py:69-71). -/
def api_set_vanne (drv : Driver) (s : MState) (idx : Nat) (action : String) :
    Except PyErr ApiRet × MState :=
  apiWrap (set_vanne drv s idx action)

/-- `Api.reset_total` (app.py:73-75). -/
def api_reset_total (drv : Driver) (s : MState) (idx : Nat) :
    Except PyErr ApiRet × MState :=
  apiWrap (reset_totalization drv s idx)

/-- `Api.set_ramp` (app.py:77-79). -/
def api_set_ramp (drv : Driver) (s : MState) (idx : Nat) (active : Bool)
    (timeS : PyVal) : Except PyErr ApiRet × MState :=
  apiWrap (apply_ramp_settings drv s idx active timeS)

/-- `Api.select_gas` (app.py:81-83). -/
def api_select_gas (drv : Driver) (s : MState) (idx : Nat)
    (gasName : String) : Except PyErr ApiRet × MState :=
  apiWrap (select_gas drv s idx gasName)

/-- A manager-level operation together with the driver behaviour and the
wall-clock instant of the call, for stating whole-run invariants. -/
inductive Op where
  | connectOp (openOk : Bool)
  | disconnectOp
  | activateOp (idx : Nat)
  | deactivateOp (idx : Nat)
  | sendConsigneOp (idx : Nat) (v : PyVal)
  | setVanneOp (idx : Nat) (action : String)
  | resetTotalizationOp (idx : Nat)
  | applyRampOp (idx : Nat) (a : Bool) (ts : PyVal)
  | selectGasOp (idx : Nat) (name : String)
  | setTagOp (idx : Nat) (tag : String)
  | pollCycleOp
  deriving Repr

/-- Apply one operation to the manager state (keeping the state also when
the operation raised, as Python does). -/
def step (s : MState) : Op × Driver × Nat → MState
  | (.connectOp ok, _, _) => (connect ok s).2.1
  | (.disconnectOp, _, _) => (disconnect s).1
  | (.activateOp i, drv, t) => (activate drv s i t).2.1
  | (.deactivateOp i, drv, t) => (deactivate drv s i t).2.1
  | (.sendConsigneOp i v, drv, t) => (send_consigne drv s i v t).2.1
  | (.setVanneOp i a, drv, _) => (set_vanne drv s i a).2.1
  | (.resetTotalizationOp i, drv, _) => (reset_totalization drv s i).2.1
  | (.applyRampOp i a ts, drv, _) => (apply_ramp_settings drv s i a ts).2.1
  | (.selectGasOp i n, drv, _) => (select_gas drv s i n).2.1
  | (.setTagOp i tg, _, _) => (set_tag s i tg).2.1
  | (.pollCycleOp, drv, t) => (poll_cycle drv s t).1

/-- Run a sequence of operations from a starting state. -/
def run (s : MState) (ops : List (Op × Driver × Nat)) : MState :=
  ops.foldl step s

/-- Both history buffers of every channel record hold at most 3600
entries. -/
def histOk (s : MState) : Prop :=
  ∀ c ∈ s.devices, c.measurements.length ≤ 3600 ∧
    c.consigne_points.length ≤ 3600

/-- `r.1` is an `error`. -/
def isErr : Except PyErr Unit → Bool
  | .error _ => true
  | .ok _ => false

deriving instance DecidableEq for Except

/-! ### Basic state lemmas -/

theorem setChan_maxDevices (s : MState) (idx : Nat) (c : Chan) :
    (setChan s idx c).maxDevices = s.maxDevices := rfl

theorem setChan_mfcObjs (s : MState) (idx : Nat) (c : Chan) :
    (setChan s idx c).mfcObjs = s.mfcObjs := rfl

theorem setChan_serialOpen (s : MState) (idx : Nat) (c : Chan) :
    (setChan s idx c).serialOpen = s.serialOpen := rfl

theorem setChan_polling (s : MState) (idx : Nat) (c : Chan) :
    (setChan s idx c).polling = s.polling := rfl

theorem setChan_length (s : MState) (idx : Nat) (c : Chan) :
    (setChan s idx c).devices.length = s.devices.length := by
  simp [setChan]

theorem chan_setChan (s : MState) (idx j : Nat) (c : Chan) :
    (setChan s idx c).chan j =
      if j = idx ∧ idx < s.devices.length then c else s.chan j := by
  unfold setChan MState.chan
  rcases eq_or_ne j idx with rfl | hne
  · rcases Nat.lt_or_ge j s.devices.length with h | h
    · simp [List.getD, List.getElem?_set_eq_of_lt _ h, h]
    · simp [List.getD, List.set_eq_of_length_le h, Nat.not_lt.mpr h]
  · simp [List.getD, List.getElem?_set_ne (Ne.symm hne), hne]

theorem chan_setChan_self (s : MState) (idx : Nat) (c : Chan)
    (h : idx < s.devices.length) : (setChan s idx c).chan idx = c := by
  simp [chan_setChan, h]

theorem chan_setChan_ne (s : MState) (idx j : Nat) (c : Chan) (h : j ≠ idx) :
    (setChan s idx c).chan j = s.chan j := by
  simp [chan_setChan, h]

theorem getD_set_false (l : List Bool) (i : Nat) :
    (l.set i false).getD i false = false := by
  induction l generalizing i with
  | nil => simp
  | cons a l ih =>
    cases i with
    | zero => simp
    | succ n => simpa using ih n

/-- Everything except channel `idx` (and nothing in the session / binding /
scheduler state) is changed. -/
def framePres (idx : Nat) (s s' : MState) : Prop :=
  s'.maxDevices = s.maxDevices ∧ s'.serialOpen = s.serialOpen ∧
  s'.mfcObjs = s.mfcObjs ∧ s'.devices.length = s.devices.length ∧
  s'.polling = s.polling ∧ ∀ j, j ≠ idx → s'.chan j = s.chan j

theorem framePres_refl (idx : Nat) (s : MState) : framePres idx s s :=
  ⟨rfl, rfl, rfl, rfl, rfl, fun _ _ => rfl⟩

theorem framePres_trans {idx : Nat} {s₁ s₂ s₃ : MState}
    (h₁ : framePres idx s₁ s₂) (h₂ : framePres idx s₂ s₃) :
    framePres idx s₁ s₃ := by
  obtain ⟨a1, b1, c1, d1, e1, f1⟩ := h₁
  obtain ⟨a2, b2, c2, d2, e2, f2⟩ := h₂
  exact ⟨a2.trans a1, b2.trans b1, c2.trans c1, d2.trans d1, e2.trans e1,
    fun j hj => (f2 j hj).trans (f1 j hj)⟩

theorem framePres_setChan (idx : Nat) (s : MState) (c : Chan) :
    framePres idx s (setChan s idx c) :=
  ⟨rfl, rfl, rfl, setChan_length s idx c, rfl,
    fun j hj => chan_setChan_ne s idx j c hj⟩

/-- The channel fields `send_consigne` never writes (it only writes
`consigne` and `consigne_points`). -/
def consFieldsEq (c c' : Chan) : Prop :=
  c'.index = c.index ∧ c'.tag = c.tag ∧ c'.active = c.active ∧
  c'.selected_gas = c.selected_gas ∧
  c'.available_gases = c.available_gases ∧ c'.gas_map = c.gas_map ∧
  c'.full_scale_value = c.full_scale_value ∧ c'.mesure = c.mesure ∧
  c'.temperature = c.temperature ∧ c'.full_scale = c.full_scale ∧
  c'.totalization_value = c.totalization_value ∧
  c'.valve_command = c.valve_command ∧ c'.ramp_active = c.ramp_active ∧
  c'.ramp_time_s = c.ramp_time_s ∧ c'.measurements = c.measurements


theorem consFieldsEq_refl (c : Chan) : consFieldsEq c c := by
  simp [consFieldsEq]

theorem frame_goal_setChan (s : MState) (idx : Nat) (d : Chan)
    (hd : consFieldsEq (s.chan idx) d) :
    framePres idx s (setChan s idx d) ∧
    consFieldsEq (s.chan idx) ((setChan s idx d).chan idx) := by
  refine ⟨framePres_setChan idx s d, ?_⟩
  rw [chan_setChan]
  split
  · exact hd
  · exact consFieldsEq_refl _

theorem frame_goal_setChan2 (s : MState) (idx : Nat) (d d' : Chan)
    (hd : consFieldsEq (s.chan idx) d) (hd' : consFieldsEq (s.chan idx) d') :
    framePres idx s (setChan (setChan s idx d) idx d') ∧
    consFieldsEq (s.chan idx) ((setChan (setChan s idx d) idx d').chan idx) := by
  refine ⟨framePres_trans (framePres_setChan idx s d)
    (framePres_setChan idx (setChan s idx d) d'), ?_⟩
  rw [chan_setChan, setChan_length]
  split
  · exact hd'
  · rw [chan_setChan]
    split
    · exact hd
    · exact consFieldsEq_refl _

theorem send_consigne_frame (drv : Driver) (s : MState) (idx : Nat)
    (v : PyVal) (now : Nat) :
    framePres idx s (send_consigne drv s idx v now).2.1 ∧
    consFieldsEq (s.chan idx) ((send_consigne drv s idx v now).2.1.chan idx) := by
  unfold send_consigne
  repeat' split
  all_goals unfold_let
  all_goals repeat' split
  all_goals
    first
      | exact ⟨framePres_refl idx s, consFieldsEq_refl _⟩
      | (refine frame_goal_setChan _ _ _ ?_; simp [consFieldsEq])
      | (refine frame_goal_setChan2 _ _ _ _ ?_ ?_ <;> simp [consFieldsEq])

/-! ### History-cap infrastructure -/

theorem pushCapped_length_le (h : List (Rat × Nat)) (x : Rat × Nat) :
    (pushCapped h x).length ≤ 3600 := by
  simp only [pushCapped, List.length_drop, List.length_append,
    List.length_singleton]
  omega

theorem pushCapped_eq_append (h : List (Rat × Nat)) (x : Rat × Nat)
    (hl : h.length < 3600) : pushCapped h x = h ++ [x] := by
  simp only [pushCapped, List.length_append, List.length_singleton]
  have : h.length + 1 - 3600 = 0 := by omega
  simp [this]

theorem pushCapped_eq_evict (h : List (Rat × Nat)) (x : Rat × Nat)
    (hl : h.length = 3600) : pushCapped h x = h.tail ++ [x] := by
  simp only [pushCapped, List.length_append, List.length_singleton, hl]
  have h1 : 3600 + 1 - 3600 = 1 := by omega
  rw [h1, List.drop_append_of_le_length (by omega), List.drop_one]

theorem histOk_chan (s : MState) (hs : histOk s) (i : Nat) :
    (s.chan i).measurements.length ≤ 3600 ∧
    (s.chan i).consigne_points.length ≤ 3600 := by
  unfold MState.chan
  rcases Nat.lt_or_ge i s.devices.length with h | h
  · have : s.devices.getD i default ∈ s.devices := by
      rw [List.getD_eq_getElem _ _ h]
      exact List.getElem_mem h
    exact hs _ this
  · rw [List.getD_eq_default _ _ h]
    constructor <;> simp [default]

theorem histOk_setChan (s : MState) (idx : Nat) (c : Chan) (hs : histOk s)
    (h1 : c.measurements.length ≤ 3600)
    (h2 : c.consigne_points.length ≤ 3600) : histOk (setChan s idx c) := by
  intro x hx
  rcases List.mem_or_eq_of_mem_set hx with hmem | rfl
  · exact hs x hmem
  · exact ⟨h1, h2⟩

theorem histOk_mfcObjs (s : MState) (m : List Bool) :
    histOk { s with mfcObjs := m } ↔ histOk s := Iff.rfl

theorem histOk_send_consigne (drv : Driver) (s : MState) (idx : Nat)
    (v : PyVal) (now : Nat) (hs : histOk s) :
    histOk (send_consigne drv s idx v now).2.1 := by
  unfold send_consigne
  repeat' split
  all_goals unfold_let
  all_goals repeat' split
  all_goals
    first
      | exact hs
      | (apply histOk_setChan _ _ _ hs <;>
          simp [(histOk_chan s hs idx).1, (histOk_chan s hs idx).2])
      | (apply histOk_setChan _ _ _ (histOk_setChan _ _ _ hs
            (by simp [(histOk_chan s hs idx).1])
            (by simp [(histOk_chan s hs idx).2])) <;>
          simp [(histOk_chan s hs idx).1, pushCapped_length_le])

theorem histOk_set_vanne (drv : Driver) (s : MState) (idx : Nat)
    (a : String) (hs : histOk s) : histOk (set_vanne drv s idx a).2.1 := by
  unfold set_vanne
  repeat' split
  all_goals
    first
      | exact hs
      | (apply histOk_setChan _ _ _ hs <;>
          simp [(histOk_chan s hs idx).1, (histOk_chan s hs idx).2])

theorem histOk_reset_totalization (drv : Driver) (s : MState) (idx : Nat)
    (hs : histOk s) : histOk (reset_totalization drv s idx).2.1 := by
  unfold reset_totalization
  repeat' split
  all_goals
    first
      | exact hs
      | (apply histOk_setChan _ _ _ hs <;>
          simp [(histOk_chan s hs idx).1, (histOk_chan s hs idx).2])

theorem histOk_apply_ramp_settings (drv : Driver) (s : MState) (idx : Nat)
    (a : Bool) (ts : PyVal) (hs : histOk s) :
    histOk (apply_ramp_settings drv s idx a ts).2.1 := by
  unfold apply_ramp_settings
  repeat' split
  all_goals unfold_let
  all_goals repeat' split
  all_goals
    first
      | exact hs
      | (apply histOk_setChan _ _ _ hs <;>
          simp [(histOk_chan s hs idx).1, (histOk_chan s hs idx).2])

theorem histOk_select_gas (drv : Driver) (s : MState) (idx : Nat)
    (n : String) (hs : histOk s) : histOk (select_gas drv s idx n).2.1 := by
  unfold select_gas
  repeat' split
  all_goals
    first
      | exact hs
      | (apply histOk_setChan _ _ _ hs <;>
          simp [(histOk_chan s hs idx).1, (histOk_chan s hs idx).2])

theorem histOk_set_tag (s : MState) (idx : Nat) (tg : String)
    (hs : histOk s) : histOk (set_tag s idx tg).2.1 := by
  unfold set_tag
  repeat' split
  all_goals
    first
      | exact hs
      | (apply histOk_setChan _ _ _ hs <;>
          simp [(histOk_chan s hs idx).1, (histOk_chan s hs idx).2])

theorem histOk_deactivate_fin (s : MState) (idx : Nat) (hs : histOk s) :
    histOk (deactivate_fin s idx) := by
  unfold deactivate_fin
  rw [histOk_mfcObjs]
  apply histOk_setChan _ _ _ hs <;> simp [reset_data]

theorem histOk_deactivate (drv : Driver) (s : MState) (idx : Nat)
    (now : Nat) (hs : histOk s) : histOk (deactivate drv s idx now).2.1 := by
  unfold deactivate
  repeat' split
  all_goals
    first
      | exact hs
      | exact histOk_deactivate_fin _ _ hs
      | (rename_i a s1 e1 heq
         refine histOk_deactivate_fin _ _ ?_
         have h' := histOk_send_consigne drv s idx (.num 0) now hs
         rw [heq] at h'
         exact h')

theorem discoverGas_hist (drv : Driver) (d : Chan) (g : Nat) :
    ((discoverGas drv d g).1).measurements = d.measurements ∧
    ((discoverGas drv d g).1).consigne_points = d.consigne_points := by
  unfold discoverGas
  repeat' split
  all_goals simp

theorem histOk_rollbackA (s : MState) (idx : Nat) (evs : List Event)
    (hs : histOk s) : histOk (rollbackA s idx evs).2.1 := by
  unfold rollbackA
  rw [histOk_mfcObjs]
  apply histOk_setChan _ _ _ hs <;>
    simp [(histOk_chan s hs idx).1, (histOk_chan s hs idx).2]

theorem histOk_activate_tail (drv : Driver) (s : MState) (idx now : Nat)
    (evs : List Event) (hs : histOk s) :
    histOk (activate_tail drv s idx now evs).2.1 := by
  have h1 := histOk_apply_ramp_settings drv s idx
    (s.chan idx).ramp_active (.num (s.chan idx).ramp_time_s) hs
  have h2 := histOk_set_vanne drv _ idx "Régulation" h1
  have h3 := histOk_send_consigne drv _ idx (.num 0) now h2
  unfold activate_tail
  unfold_let
  repeat' split
  all_goals
    first
      | exact h3
      | exact histOk_rollbackA _ _ _ h1
      | exact histOk_rollbackA _ _ _ h2
      | exact histOk_rollbackA _ _ _ h3

theorem discoverAll_hist (drv : Driver) (d : Chan) :
    ((discoverAll drv d).1).measurements = d.measurements ∧
    ((discoverAll drv d).1).consigne_points = d.consigne_points := by
  unfold discoverAll
  simp only [List.foldl_cons, List.foldl_nil]
  refine ⟨?_, ?_⟩ <;>
    simp [(discoverGas_hist drv _ _).1, (discoverGas_hist drv _ _).2]

theorem histOk_activate_s1 (s : MState) (idx : Nat) (hs : histOk s) :
    histOk (activate_s1 s idx) := by
  unfold activate_s1
  rw [histOk_mfcObjs]
  apply histOk_setChan _ _ _ hs <;>
    simp [(histOk_chan s hs idx).1, (histOk_chan s hs idx).2]

theorem activate_d1_hist (drv : Driver) (s : MState) (idx : Nat) :
    (activate_d1 drv s idx).measurements =
      ((activate_s1 s idx).chan idx).measurements ∧
    (activate_d1 drv s idx).consigne_points =
      ((activate_s1 s idx).chan idx).consigne_points := by
  unfold activate_d1
  refine ⟨(discoverAll_hist drv _).1.trans ?_,
    (discoverAll_hist drv _).2.trans ?_⟩ <;> simp [activate_d0]

theorem histOk_activate_s2 (drv : Driver) (s : MState) (idx : Nat)
    (hs : histOk s) : histOk (activate_s2 drv s idx) := by
  have h1 := histOk_activate_s1 s idx hs
  unfold activate_s2
  apply histOk_setChan _ _ _ h1
  · rw [(activate_d1_hist drv s idx).1]
    exact (histOk_chan _ h1 idx).1
  · rw [(activate_d1_hist drv s idx).2]
    exact (histOk_chan _ h1 idx).2

theorem histOk_activate_s3 (drv : Driver) (s : MState) (idx gid : Nat)
    (hs : histOk s) : histOk (activate_s3 drv s idx gid) := by
  have h1 := histOk_activate_s1 s idx hs
  unfold activate_s3
  apply histOk_setChan _ _ _ (histOk_activate_s2 drv s idx hs)
  · simpa [(activate_d1_hist drv s idx).1] using (histOk_chan _ h1 idx).1
  · simpa [(activate_d1_hist drv s idx).2] using (histOk_chan _ h1 idx).2

theorem histOk_activate (drv : Driver) (s : MState) (idx now : Nat)
    (hs : histOk s) : histOk (activate drv s idx now).2.1 := by
  unfold activate
  unfold_let
  repeat' split
  all_goals
    first
      | exact hs
      | exact histOk_rollbackA _ _ _ hs
      | exact histOk_rollbackA _ _ _ (histOk_activate_s2 drv s idx hs)
      | exact histOk_rollbackA _ _ _ (histOk_activate_s3 drv s idx _ hs)
      | exact histOk_activate_tail _ _ _ _ _ (histOk_activate_s2 drv s idx hs)
      | exact histOk_activate_tail _ _ _ _ _
          (histOk_activate_s3 drv s idx _ hs)

theorem poll_d_hist (s : MState) (idx : Nat) :
    (poll_d s idx).measurements = (s.chan idx).measurements ∧
    (poll_d s idx).consigne_points = (s.chan idx).consigne_points := by
  unfold poll_d
  repeat' split
  all_goals simp

theorem histOk_poll_s1 (s : MState) (idx : Nat) (hs : histOk s) :
    histOk (poll_s1 s idx) := by
  unfold poll_s1
  apply histOk_setChan _ _ _ hs
  · rw [(poll_d_hist s idx).1]
    exact (histOk_chan s hs idx).1
  · rw [(poll_d_hist s idx).2]
    exact (histOk_chan s hs idx).2

theorem histOk_poll_s2 (s : MState) (idx : Nat) (fr tmp fs tot : Rat × String)
    (valve : String) (now : Nat) (hs : histOk s) :
    histOk (poll_s2 s idx fr tmp fs tot valve now) := by
  unfold poll_s2
  apply histOk_setChan _ _ _ (histOk_poll_s1 s idx hs) <;>
    simp [poll_upd, pushCapped_length_le]

theorem histOk_poll_one (drv : Driver) (s : MState) (idx now : Nat)
    (hs : histOk s) : histOk (poll_one drv s idx now).2.1 := by
  unfold poll_one
  repeat' split
  all_goals unfold_let
  all_goals repeat' split
  all_goals
    first
      | exact hs
      | exact histOk_poll_s1 s idx hs
      | exact histOk_poll_s2 s idx _ _ _ _ _ now hs
      | exact histOk_send_consigne drv _ idx _ now
          (histOk_poll_s2 s idx _ _ _ _ _ now hs)

theorem histOk_poll_step (drv : Driver) (now : Nat) (s : MState) (i : Nat)
    (hs : histOk s) : histOk (poll_step drv now s i).1 := by
  unfold poll_step
  repeat' split
  all_goals
    first
      | exact hs
      | skip
  all_goals
    rename_i heq
    have h1 := histOk_poll_one drv s i now
    rw [heq] at h1
    first
      | exact h1 hs
      | (apply histOk_setChan _ _ _ (h1 hs) <;> simp [reset_data])

theorem histOk_poll_cycle (drv : Driver) (s : MState) (now : Nat)
    (hs : histOk s) : histOk (poll_cycle drv s now).1 := by
  unfold poll_cycle
  have main : ∀ (l : List Nat) (p : MState × List Event), histOk p.1 →
      histOk (l.foldl (fun acc i =>
        ((poll_step drv now acc.1 i).1,
          acc.2 ++ (poll_step drv now acc.1 i).2)) p).1 := by
    intro l
    induction l with
    | nil => intro p hp; exact hp
    | cons i l ih =>
      intro p hp
      exact ih _ (histOk_poll_step drv now p.1 i hp)
  exact main _ (s, []) hs

theorem histOk_disconnect (s : MState) (hs : histOk s) :
    histOk (disconnect s).1 := by
  unfold disconnect
  intro c hc
  simp only [List.mem_map] at hc
  obtain ⟨a, ha, rfl⟩ := hc
  simpa using hs a ha

theorem histOk_connect (openOk : Bool) (s : MState) (hs : histOk s) :
    histOk (connect openOk s).2.1 := by
  unfold connect
  unfold_let
  split
  · intro c hc
    exact histOk_disconnect s hs c hc
  · exact histOk_disconnect s hs

theorem histOk_step (s : MState) (o : Op × Driver × Nat) (hs : histOk s) :
    histOk (step s o) := by
  rcases o with ⟨op, drv, t⟩
  cases op with
  | connectOp ok => exact histOk_connect ok s hs
  | disconnectOp => exact histOk_disconnect s hs
  | activateOp i => exact histOk_activate drv s i t hs
  | deactivateOp i => exact histOk_deactivate drv s i t hs
  | sendConsigneOp i v => exact histOk_send_consigne drv s i v t hs
  | setVanneOp i a => exact histOk_set_vanne drv s i a hs
  | resetTotalizationOp i => exact histOk_reset_totalization drv s i hs
  | applyRampOp i a ts => exact histOk_apply_ramp_settings drv s i a ts hs
  | selectGasOp i n => exact histOk_select_gas drv s i n hs
  | setTagOp i tg => exact histOk_set_tag s i tg hs
  | pollCycleOp => exact histOk_poll_cycle drv s t hs

theorem histOk_run (s : MState) (ops : List (Op × Driver × Nat))
    (hs : histOk s) : histOk (run s ops) := by
  induction ops generalizing s with
  | nil => exact hs
  | cons o ops ih => exact ih _ (histOk_step s o hs)

/-! ### Concrete fixtures for witnesses and counterexamples -/

/-- A driver whose every exchange succeeds (gas names empty, reads falsy). -/
def drv0 : Driver := {}

/-- An activated channel with a discovered gas menu. -/
def chanA : Chan :=
  { index := 0
    tag := "MFC00001"
    active := true
    selected_gas := some 2
    available_gases := ["Azote"]
    gas_map := [("Azote", 2)] }

/-- A one-channel connected manager with channel 0 active and bound. -/
def sA : MState :=
  { maxDevices := 1
    serialOpen := true
    devices := [chanA]
    mfcObjs := [true]
    polling := true }

/-- A one-channel connected manager with channel 0 active, bound, and a
known full scale of 100. -/
def sB : MState :=
  { maxDevices := 1
    serialOpen := true
    devices := [{ chanA with full_scale_value := 100 }]
    mfcObjs := [true]
    polling := true }

/-- A one-channel connected manager whose channel 0 is inactive. -/
def sOff : MState :=
  { maxDevices := 1
    serialOpen := true
    devices := [{ chanA with active := false }]
    mfcObjs := [false]
    polling := true }

/-! ### Claim theorems -/

/-- C2: for every numeric setpoint `v` and active channel `idx` whose full
scale `F` is positive, after `send_consigne` the stored setpoint lies in
`[0, F]`; if `v > F` it equals `F` and if `v < 0` it equals `0`. -/
theorem C2_setpoint_clamped (drv : Driver) (s : MState) (idx : Nat)
    (v : Rat) (now : Nat) (hidx : idx < s.maxDevices)
    (hlen : s.devices.length = s.maxDevices)
    (hmfc : needMfcOk s idx = true)
    (hF : 0 < (s.chan idx).full_scale_value) :
    0 ≤ ((send_consigne drv s idx (.num v) now).2.1.chan idx).consigne ∧
    ((send_consigne drv s idx (.num v) now).2.1.chan idx).consigne ≤
      (s.chan idx).full_scale_value ∧
    ((s.chan idx).full_scale_value < v →
      ((send_consigne drv s idx (.num v) now).2.1.chan idx).consigne =
        (s.chan idx).full_scale_value) ∧
    (v < 0 →
      ((send_consigne drv s idx (.num v) now).2.1.chan idx).consigne = 0) := by
  have hl : idx < s.devices.length := by rw [hlen]; exact hidx
  have hF0 : (s.chan idx).full_scale_value ≠ 0 := ne_of_gt hF
  unfold send_consigne
  simp only [hidx, ite_true, hmfc, if_true, floatParse]
  simp only [ne_eq, hF0, not_false_eq_true, true_and]
  repeat' split
  all_goals
    (rw [chan_setChan_self _ _ _ (by simpa [setChan_length] using hl)]
     refine ⟨?_, ?_, ?_, ?_⟩ <;> (try intro hv) <;> dsimp only <;> linarith)

/-- Witness for C2 at a concrete input: channel 0 of `sB` has full scale
100; requesting 150 stores exactly 100. -/
theorem C2_setpoint_clamped_witness :
    0 ≤ ((send_consigne drv0 sB 0 (.num 150) 1).2.1.chan 0).consigne ∧
    ((send_consigne drv0 sB 0 (.num 150) 1).2.1.chan 0).consigne ≤
      (sB.chan 0).full_scale_value ∧
    ((sB.chan 0).full_scale_value < 150 →
      ((send_consigne drv0 sB 0 (.num 150) 1).2.1.chan 0).consigne =
        (sB.chan 0).full_scale_value) ∧
    ((150 : Rat) < 0 →
      ((send_consigne drv0 sB 0 (.num 150) 1).2.1.chan 0).consigne = 0) :=
  C2_setpoint_clamped drv0 sB 0 150 1 (by decide) (by decide) (by decide)
    (by decide)

/-- C6: along any operation sequence the history buffers hold at most 3600
entries per channel, and an append at the cap evicts exactly the oldest
entry (FIFO), appends below the cap evict nothing. -/
theorem C6_history_bounded (s0 : MState) (ops : List (Op × Driver × Nat))
    (h0 : histOk s0) :
    histOk (run s0 ops) ∧
    (∀ (h : List (Rat × Nat)) (x : Rat × Nat), h.length < 3600 →
      pushCapped h x = h ++ [x]) ∧
    (∀ (h : List (Rat × Nat)) (x : Rat × Nat), h.length = 3600 →
      pushCapped h x = h.tail ++ [x]) :=
  ⟨histOk_run s0 ops h0, pushCapped_eq_append, pushCapped_eq_evict⟩

/-- Witness for C6: a concrete activate-then-poll run keeps the cap. -/
theorem C6_history_bounded_witness :
    histOk (run sA [(Op.activateOp 0, drv0, 1), (Op.pollCycleOp, drv0, 2)]) :=
  (C6_history_bounded sA
    [(Op.activateOp 0, drv0, 1), (Op.pollCycleOp, drv0, 2)]
    (by unfold histOk; decide)).1

/-- C10: `send_consigne` checks the channel before parsing the value: on an
inactive in-range channel it raises `Device OFF` for every input, numeric or
not; on an active bound channel a non-numeric input returns silently with no
state change and no device write. -/
theorem C10_active_check_before_parse (drv : Driver) (s : MState)
    (idx now : Nat) (hidx : idx < s.maxDevices) :
    ((s.chan idx).active = false →
      ∀ v, send_consigne drv s idx v now = (.error .deviceOff, s, [])) ∧
    (needMfcOk s idx = true →
      send_consigne drv s idx .nonNum now = (.ok (), s, [])) := by
  constructor
  · intro hoff v
    unfold send_consigne
    simp [hidx, needMfcOk, hoff]
  · intro hmfc
    unfold send_consigne
    simp [hidx, hmfc, floatParse]

/-- Witness for C10: channel 0 of `sOff` is inactive, and `sA`'s channel 0
swallows a non-numeric setpoint. -/
theorem C10_active_check_before_parse_witness :
    send_consigne drv0 sOff 0 .nonNum 1 = (.error .deviceOff, sOff, []) ∧
    send_consigne drv0 sA 0 .nonNum 1 = (.ok (), sA, []) :=
  ⟨(C10_active_check_before_parse drv0 sOff 0 1 (by decide)).1 (by decide)
      .nonNum,
    (C10_active_check_before_parse drv0 sA 0 1 (by decide)).2 (by decide)⟩

theorem active_map_false (l : List Chan) (i : Nat) :
    ((l.map (fun (d : Chan) => { d with active := false })).getD i
        default).active = false := by
  induction l generalizing i with
  | nil => rfl
  | cons a l ih =>
    cases i with
    | zero => rfl
    | succ n => simpa using ih n

theorem getD_map_false (l : List Bool) (i : Nat) :
    (l.map (fun _ => false)).getD i false = false := by
  induction l generalizing i with
  | nil => rfl
  | cons a l ih =>
    cases i with
    | zero => rfl
    | succ n => simpa using ih n

theorem map_inactive_idem (l : List Chan) :
    (l.map (fun (d : Chan) => { d with active := false })).map
      (fun (d : Chan) => { d with active := false }) =
    l.map (fun (d : Chan) => { d with active := false }) := by
  induction l with
  | nil => rfl
  | cons a l ih => simp [ih]

theorem map_false_idem (l : List Bool) :
    (l.map (fun _ => false)).map (fun _ => false) =
      l.map (fun _ => false) := by
  induction l with
  | nil => rfl
  | cons a l ih => simp [ih]

/-- C7: `disconnect` is idempotent: with no open session it performs no
protocol exchange and no transport close (empty event trace); afterwards
every channel is inactive with no binding; and a second `disconnect` leaves
the state identical and emits no event. -/
theorem C7_disconnect_idempotent (s : MState) :
    (s.serialOpen = false → (disconnect s).2 = []) ∧
    (∀ i, (((disconnect s).1).chan i).active = false) ∧
    (∀ i, ((disconnect s).1).mfcObjs.getD i false = false) ∧
    (disconnect (disconnect s).1).1 = (disconnect s).1 ∧
    (disconnect (disconnect s).1).2 = [] := by
  refine ⟨?_, ?_, ?_, ?_, ?_⟩
  · intro h
    simp [disconnect, h]
  · intro i
    exact active_map_false s.devices i
  · intro i
    exact getD_map_false s.mfcObjs i
  · simp [disconnect, map_inactive_idem, map_false_idem]
  · simp [disconnect]

/-- Witness for C7 on a concrete state with no open session. -/
theorem C7_disconnect_idempotent_witness :
    (disconnect { sA with serialOpen := false }).2 = [] ∧
    (disconnect (disconnect { sA with serialOpen := false }).1).1 =
      (disconnect { sA with serialOpen := false }).1 :=
  ⟨(C7_disconnect_idempotent { sA with serialOpen := false }).1 rfl,
    (C7_disconnect_idempotent { sA with serialOpen := false }).2.2.2.1⟩

theorem deactivate_fin_chan (s : MState) (idx : Nat)
    (hl : idx < s.devices.length) :
    (deactivate_fin s idx).chan idx =
      reset_data { s.chan idx with active := false } ∧
    (deactivate_fin s idx).mfcObjs.getD idx false = false := by
  unfold deactivate_fin
  exact ⟨chan_setChan_self s idx _ hl, getD_set_false _ idx⟩

/-- C1 as stated is false on the code: `deactivate` never clears
`selected_gas` nor the gas menus.  On the concrete state `sA` (channel 0
active, gas menu `["Azote"]`, selected gas 2), after `deactivate` the
channel still has its gas selection and menus. -/
theorem C1_counterexample :
    ¬ ((((deactivate drv0 sA 0 5).2.1).chan 0).selected_gas = none ∧
       (((deactivate drv0 sA 0 5).2.1).chan 0).available_gases = [] ∧
       (((deactivate drv0 sA 0 5).2.1).chan 0).gas_map = []) := by
  decide

/-- C1 amended: after `deactivate(idx)` on an in-range channel, the call
returns normally and the channel is in the inactive state — `active = false`,
binding dropped, the five telemetry fields at the `(0, "N/A")` sentinel and
both histories empty — regardless of whether the shutdown sub-steps
succeeded; but `selected_gas`, `available_gases` and `gas_map` retain their
prior values (they are not cleared). -/
theorem C1_deactivate_amended (drv : Driver) (s : MState) (idx now : Nat)
    (hidx : idx < s.maxDevices) (hlen : s.devices.length = s.maxDevices) :
    (deactivate drv s idx now).1 = .ok () ∧
    (((deactivate drv s idx now).2.1).chan idx).active = false ∧
    ((deactivate drv s idx now).2.1).mfcObjs.getD idx false = false ∧
    (((deactivate drv s idx now).2.1).chan idx).mesure = (0, "N/A") ∧
    (((deactivate drv s idx now).2.1).chan idx).temperature = (0, "N/A") ∧
    (((deactivate drv s idx now).2.1).chan idx).full_scale = (0, "N/A") ∧
    (((deactivate drv s idx now).2.1).chan idx).totalization_value =
      (0, "N/A") ∧
    (((deactivate drv s idx now).2.1).chan idx).valve_command = "N/A" ∧
    (((deactivate drv s idx now).2.1).chan idx).measurements = [] ∧
    (((deactivate drv s idx now).2.1).chan idx).consigne_points = [] ∧
    (((deactivate drv s idx now).2.1).chan idx).selected_gas =
      (s.chan idx).selected_gas ∧
    (((deactivate drv s idx now).2.1).chan idx).available_gases =
      (s.chan idx).available_gases ∧
    (((deactivate drv s idx now).2.1).chan idx).gas_map =
      (s.chan idx).gas_map := by
  have hl : idx < s.devices.length := by rw [hlen]; exact hidx
  unfold deactivate
  simp only [hidx, ite_true, if_true]
  split
  · -- shutdown path: send_consigne 0 attempted first
    have hfr := send_consigne_frame drv s idx (.num 0) now
    rcases hq : send_consigne drv s idx (.num 0) now with ⟨e1, s1, ev1⟩
    rw [hq] at hfr
    obtain ⟨⟨_, _, _, hlen1, _, _⟩, hcf⟩ := hfr
    have hl1 : idx < s1.devices.length := by rw [hlen1]; exact hl
    obtain ⟨_, _, _, hsel, hav, hgm, _⟩ := hcf
    cases e1 <;>
      (refine ⟨rfl, ?_⟩
       rw [(deactivate_fin_chan s1 idx hl1).1]
       refine ⟨rfl, (deactivate_fin_chan s1 idx hl1).2, rfl, rfl, rfl, rfl,
         rfl, rfl, rfl, ?_, ?_, ?_⟩ <;> simp [reset_data, hsel, hav, hgm])
  · refine ⟨rfl, ?_⟩
    rw [(deactivate_fin_chan s idx hl).1]
    exact ⟨rfl, (deactivate_fin_chan s idx hl).2, rfl, rfl, rfl, rfl, rfl,
      rfl, rfl, rfl, rfl, rfl⟩

/-- Witness for C1 amended at the concrete state `sA`. -/
theorem C1_deactivate_amended_witness :
    (deactivate drv0 sA 0 5).1 = .ok () ∧
    (((deactivate drv0 sA 0 5).2.1).chan 0).active = false ∧
    (((deactivate drv0 sA 0 5).2.1).chan 0).selected_gas =
      (sA.chan 0).selected_gas :=
  ⟨(C1_deactivate_amended drv0 sA 0 5 (by decide) (by decide)).1,
    (C1_deactivate_amended drv0 sA 0 5 (by decide) (by decide)).2.1,
    (C1_deactivate_amended drv0 sA 0 5 (by decide) (by decide)).2.2.2.2.2.2.2.2.2.2.1⟩

/-! ### Length and rollback lemmas for activation -/

theorem rollbackA_length (s : MState) (idx : Nat) (evs : List Event) :
    ((rollbackA s idx evs).2.1).devices.length = s.devices.length := by
  simp [rollbackA, setChan_length]

theorem rollbackA_post (s : MState) (idx : Nat) (evs : List Event)
    (hl : idx < s.devices.length) :
    (((rollbackA s idx evs).2.1).chan idx).active = false ∧
    ((rollbackA s idx evs).2.1).mfcObjs.getD idx false = false := by
  unfold rollbackA
  refine ⟨?_, getD_set_false _ idx⟩
  have : ((setChan s idx { s.chan idx with active := false }).chan idx) =
      { s.chan idx with active := false } := chan_setChan_self s idx _ hl
  simp only [MState.chan] at this ⊢
  rw [this]

theorem send_consigne_length (drv : Driver) (s : MState) (idx : Nat)
    (v : PyVal) (now : Nat) :
    ((send_consigne drv s idx v now).2.1).devices.length =
      s.devices.length :=
  (send_consigne_frame drv s idx v now).1.2.2.2.1

theorem set_vanne_length (drv : Driver) (s : MState) (idx : Nat)
    (a : String) :
    ((set_vanne drv s idx a).2.1).devices.length = s.devices.length := by
  unfold set_vanne
  repeat' split
  all_goals simp [setChan_length]

theorem apply_ramp_settings_length (drv : Driver) (s : MState) (idx : Nat)
    (a : Bool) (ts : PyVal) :
    ((apply_ramp_settings drv s idx a ts).2.1).devices.length =
      s.devices.length := by
  unfold apply_ramp_settings
  repeat' split
  all_goals unfold_let
  all_goals repeat' split
  all_goals simp [setChan_length]

theorem activate_tail_length (drv : Driver) (s : MState) (idx now : Nat)
    (evs : List Event) :
    ((activate_tail drv s idx now evs).2.1).devices.length =
      s.devices.length := by
  unfold activate_tail
  unfold_let
  repeat' split
  all_goals
    simp [rollbackA_length, send_consigne_length, set_vanne_length,
      apply_ramp_settings_length]

theorem activate_tail_err (drv : Driver) (s : MState) (idx now : Nat)
    (evs : List Event) (hl : idx < s.devices.length) (e : PyErr)
    (herr : (activate_tail drv s idx now evs).1 = .error e) :
    (((activate_tail drv s idx now evs).2.1).chan idx).active = false ∧
    ((activate_tail drv s idx now evs).2.1).mfcObjs.getD idx false =
      false := by
  have l1 := apply_ramp_settings_length drv s idx (s.chan idx).ramp_active
    (.num (s.chan idx).ramp_time_s)
  have l2 := set_vanne_length drv
    (apply_ramp_settings drv s idx (s.chan idx).ramp_active
      (.num (s.chan idx).ramp_time_s)).2.1 idx "Régulation"
  have l3 := send_consigne_length drv
    (set_vanne drv (apply_ramp_settings drv s idx
      (s.chan idx).ramp_active
      (.num (s.chan idx).ramp_time_s)).2.1 idx "Régulation").2.1 idx
    (.num 0) now
  unfold activate_tail at herr ⊢
  unfold_let at herr ⊢
  by_cases h1 : errOf (apply_ramp_settings drv s idx
      (s.chan idx).ramp_active (.num (s.chan idx).ramp_time_s)).1 = true
  · rw [if_pos h1]
    exact rollbackA_post _ idx _ (by rw [l1]; exact hl)
  · rw [if_neg h1]
    by_cases h2 : errOf (set_vanne drv (apply_ramp_settings drv s idx
        (s.chan idx).ramp_active
        (.num (s.chan idx).ramp_time_s)).2.1 idx "Régulation").1 = true
    · rw [if_pos h2]
      exact rollbackA_post _ idx _ (by rw [l2, l1]; exact hl)
    · rw [if_neg h2]
      by_cases h3 : errOf (send_consigne drv (set_vanne drv
          (apply_ramp_settings drv s idx (s.chan idx).ramp_active
            (.num (s.chan idx).ramp_time_s)).2.1 idx "Régulation").2.1
          idx (.num 0) now).1 = true
      · rw [if_pos h3]
        exact rollbackA_post _ idx _ (by rw [l3, l2, l1]; exact hl)
      · rw [if_neg h1, if_neg h2, if_neg h3] at herr
        exact absurd herr (by simp)

theorem activate_s1_length (s : MState) (idx : Nat) :
    (activate_s1 s idx).devices.length = s.devices.length := by
  simp [activate_s1, setChan_length]

theorem activate_s2_length (drv : Driver) (s : MState) (idx : Nat) :
    (activate_s2 drv s idx).devices.length = s.devices.length := by
  simp [activate_s2, setChan_length, activate_s1_length]

theorem activate_s3_length (drv : Driver) (s : MState) (idx gid : Nat) :
    (activate_s3 drv s idx gid).devices.length = s.devices.length := by
  simp [activate_s3, setChan_length, activate_s2_length]

set_option maxHeartbeats 2000000 in
/-- C3: with an open session and an in-range index, a failing address probe
makes `activate` raise; and whenever `activate` raises — at whatever step —
no binding is retained and the channel's `active` flag is false after the
call (rollback of `active`/binding is unconditional on error). -/
theorem C3_activate_rollback (drv : Driver) (s : MState) (idx now : Nat)
    (hidx : idx < s.maxDevices) (hlen : s.devices.length = s.maxDevices)
    (hopen : s.serialOpen = true) :
    (drv.getAddress = false →
      (activate drv s idx now).1 = .error .driverErr) ∧
    (∀ e, (activate drv s idx now).1 = .error e →
      (((activate drv s idx now).2.1).chan idx).active = false ∧
      ((activate drv s idx now).2.1).mfcObjs.getD idx false = false) := by
  have hl : idx < s.devices.length := by rw [hlen]; exact hidx
  constructor
  · intro hga
    unfold activate
    simp [hidx, hopen, hga, rollbackA]
  · intro e
    have hl2 : idx < (activate_s2 drv s idx).devices.length := by
      rw [activate_s2_length]
      exact hl
    have hl3 : ∀ gid, idx < (activate_s3 drv s idx gid).devices.length := by
      intro gid
      rw [activate_s3_length]
      exact hl
    unfold activate
    simp only [hidx, ite_true, if_true, hopen]
    unfold_let
    repeat' split
    all_goals intro herr
    all_goals
      first
        | exact activate_tail_err drv _ idx now _ (hl3 _) e herr
        | exact activate_tail_err drv _ idx now _ hl2 e herr
        | exact rollbackA_post _ idx _ (hl3 _)
        | exact rollbackA_post _ idx _ hl2
        | exact rollbackA_post _ idx _ hl

/-- Witness for C3: on `sA` with a driver whose address probe raises,
activation fails and rolls back. -/
theorem C3_activate_rollback_witness :
    (activate { getAddress := false } sA 0 3).1 = .error .driverErr ∧
    (((activate { getAddress := false } sA 0 3).2.1).chan 0).active =
      false :=
  ⟨(C3_activate_rollback { getAddress := false } sA 0 3 (by decide)
      (by decide) (by decide)).1 rfl,
    ((C3_activate_rollback { getAddress := false } sA 0 3 (by decide)
      (by decide) (by decide)).2 .driverErr
      ((C3_activate_rollback { getAddress := false } sA 0 3 (by decide)
        (by decide) (by decide)).1 rfl)).1⟩

/-! ### Frame lemmas for the polling loop -/

theorem poll_d_active (s : MState) (idx : Nat) :
    (poll_d s idx).active = (s.chan idx).active := by
  unfold poll_d
  repeat' split
  all_goals simp

theorem framePres_poll_s1 (s : MState) (idx : Nat) :
    framePres idx s (poll_s1 s idx) := framePres_setChan idx s _

theorem framePres_poll_s2 (s : MState) (idx : Nat)
    (fr tmp fs tot : Rat × String) (valve : String) (now : Nat) :
    framePres idx s (poll_s2 s idx fr tmp fs tot valve now) :=
  framePres_trans (framePres_poll_s1 s idx) (framePres_setChan idx _ _)

theorem poll_s1_active (s : MState) (idx : Nat) :
    ((poll_s1 s idx).chan idx).active = (s.chan idx).active := by
  unfold poll_s1
  rw [chan_setChan]
  split
  · exact poll_d_active s idx
  · rfl

theorem poll_s2_active (s : MState) (idx : Nat)
    (fr tmp fs tot : Rat × String) (valve : String) (now : Nat) :
    ((poll_s2 s idx fr tmp fs tot valve now).chan idx).active =
      (s.chan idx).active := by
  unfold poll_s2
  rw [chan_setChan]
  split
  · simpa [poll_upd] using poll_d_active s idx
  · exact poll_s1_active s idx

theorem poll_one_frame (drv : Driver) (s : MState) (idx now : Nat) :
    framePres idx s (poll_one drv s idx now).2.1 ∧
    (((poll_one drv s idx now).2.1).chan idx).active =
      (s.chan idx).active := by
  unfold poll_one
  repeat' split
  all_goals unfold_let
  all_goals repeat' split
  all_goals
    first
      | exact ⟨framePres_refl idx s, rfl⟩
      | exact ⟨framePres_poll_s1 s idx, poll_s1_active s idx⟩
      | exact ⟨framePres_poll_s2 s idx _ _ _ _ _ now,
          poll_s2_active s idx _ _ _ _ _ now⟩
      | (refine ⟨framePres_trans (framePres_poll_s2 s idx _ _ _ _ _ now)
          (send_consigne_frame drv _ idx _ now).1, ?_⟩
         rw [(send_consigne_frame drv _ idx _ now).2.2.2.1]
         exact poll_s2_active s idx _ _ _ _ _ now)

/-- C5: when `_poll_one` for channel `i` raises, the enclosing loop body
resets exactly that channel's telemetry and histories to the unknown
sentinel, leaves its `active` flag true, and leaves every other channel
untouched; the loop body itself never propagates the error (it is a total
function returning the next state). -/
theorem C5_poll_failure_isolated (drv : Driver) (s : MState) (i now : Nat)
    (e : PyErr) (hlen : s.devices.length = s.maxDevices)
    (hi : i < s.maxDevices) (hact : (s.chan i).active = true)
    (herr : (poll_one drv s i now).1 = .error e) :
    (((poll_step drv now s i).1).chan i).mesure = (0, "N/A") ∧
    (((poll_step drv now s i).1).chan i).temperature = (0, "N/A") ∧
    (((poll_step drv now s i).1).chan i).full_scale = (0, "N/A") ∧
    (((poll_step drv now s i).1).chan i).totalization_value = (0, "N/A") ∧
    (((poll_step drv now s i).1).chan i).valve_command = "N/A" ∧
    (((poll_step drv now s i).1).chan i).measurements = [] ∧
    (((poll_step drv now s i).1).chan i).consigne_points = [] ∧
    (((poll_step drv now s i).1).chan i).active = true ∧
    (∀ j, j ≠ i → ((poll_step drv now s i).1).chan j = s.chan j) := by
  have hfr := poll_one_frame drv s i now
  have hl : i < s.devices.length := by rw [hlen]; exact hi
  have hlp : i < ((poll_one drv s i now).2.1).devices.length := by
    rw [hfr.1.2.2.2.1]
    exact hl
  unfold poll_step
  simp only [hact, ite_true, if_true]
  rcases hr : poll_one drv s i now with ⟨re, sp, ev⟩
  rw [hr] at herr hfr hlp
  cases re with
  | ok u => exact absurd herr (by simp)
  | error e' =>
    rw [chan_setChan_self _ _ _ hlp]
    refine ⟨rfl, rfl, rfl, rfl, rfl, rfl, rfl, ?_, ?_⟩
    · show (sp.chan i).active = true
      rw [hfr.2]
      exact hact
    · intro j hj
      rw [chan_setChan_ne _ _ _ _ hj]
      exact hfr.1.2.2.2.2.2 j hj

/-- Witness for C5: with a driver whose flow-rate read raises, the poll step
on `sA` resets channel 0 but keeps it active. -/
theorem C5_poll_failure_isolated_witness :
    (((poll_step { readFlowRate := fun _ => none } 9 sA 0).1).chan 0).mesure =
      (0, "N/A") ∧
    (((poll_step { readFlowRate := fun _ => none } 9 sA 0).1).chan 0).active =
      true :=
  ⟨(C5_poll_failure_isolated { readFlowRate := fun _ => none } sA 0 9
      .driverErr (by decide) (by decide) (by decide) (by decide)).1,
    (C5_poll_failure_isolated { readFlowRate := fun _ => none } sA 0 9
      .driverErr (by decide) (by decide) (by decide) (by decide)).2.2.2.2.2.2.2.1⟩

theorem poll_defer_write (drv2 : Driver) (s0 : MState) (idx now2 g : Nat)
    (v F : Rat) (u : String) (fr0 tmp0 tot0 : Option (Rat × String))
    (valve0 : Option String)
    (hidx : idx < s0.maxDevices) (hl : idx < s0.devices.length)
    (hmfc : needMfcOk s0 idx = true)
    (hgas : (s0.chan idx).selected_gas = some g)
    (hcons : (s0.chan idx).consigne = v)
    (hv : 0 < v) (hF : 0 < F)
    (hr1 : drv2.readFlowRate g = some fr0)
    (hr2 : drv2.readDynamic = some tmp0)
    (hr3 : drv2.readFullScale g = some (some (F, u)))
    (hr4 : drv2.readTotalizer = some tot0)
    (hr5 : drv2.redVanne = some valve0) :
    (poll_one drv2 s0 idx now2).1 = .ok () ∧
    Event.writeSetpoint ((if F < v then F else v) / F * 100) ∈
      (poll_one drv2 s0 idx now2).2.2 := by
  have hnv : ¬ v < 0 := not_lt.mpr hv.le
  have hpd : poll_d s0 idx = s0.chan idx := by
    unfold poll_d
    simp [hgas]
  have hmfc3 : ∀ fr tmp tot valve, needMfcOk
      (poll_s2 s0 idx fr tmp (F, u) tot valve now2) idx = true := by
    intro fr tmp tot valve
    unfold needMfcOk at hmfc ⊢
    rw [poll_s2_active]
    exact hmfc
  have hchan3 : ∀ fr tmp tot valve,
      (poll_s2 s0 idx fr tmp (F, u) tot valve now2).chan idx =
        poll_upd (poll_d s0 idx) fr tmp (F, u) tot valve now2 := by
    intro fr tmp tot valve
    unfold poll_s2
    apply chan_setChan_self
    show idx < (poll_s1 s0 idx).devices.length
    unfold poll_s1
    rw [setChan_length]
    exact hl
  have hfsv : ∀ (fr tmp tot : Rat × String) (valve : String),
      Chan.full_scale_value
        (poll_upd (poll_d s0 idx) fr tmp (F, u) tot valve now2) = F := by
    intro fr tmp tot valve
    simp [poll_upd]
  have hcons3 : ∀ fr tmp tot valve,
      (poll_upd (poll_d s0 idx) fr tmp (F, u) tot valve now2).consigne =
        v := by
    intro fr tmp tot valve
    simp [poll_upd, hpd, hcons]
  have hW : ∀ fr tmp tot valve,
      (send_consigne drv2 (poll_s2 s0 idx fr tmp (F, u) tot valve now2)
        idx (.num v) now2).2.2 =
      [Event.writeSetpoint ((if F < v then F else v) / F * 100)] := by
    intro fr tmp tot valve
    have hidx3 : idx <
        (poll_s2 s0 idx fr tmp (F, u) tot valve now2).maxDevices := hidx
    unfold send_consigne
    simp only [hidx3, ite_true, if_true, hmfc3, floatParse]
    rw [if_neg hnv, hchan3]
    simp only [hfsv, hcons3, hF.ne', not_false_eq_true, ne_eq, true_and,
      ite_false]
    repeat' split
    all_goals simp_all [hF.ne']
  constructor
  · unfold poll_one
    simp only [hidx, ite_true, if_true, hmfc, hpd, hgas, hr1, hr2, hr3,
      hr4, hr5, Option.getD_some]
    split <;> rfl
  · unfold poll_one
    simp only [hidx, ite_true, if_true, hmfc, hpd, hgas, hr1, hr2, hr3,
      hr4, hr5, Option.getD_some]
    split
    · rw [hcons, hW]
      simp
    · rename_i hcontra
      refine absurd ⟨by simpa using hF.ne', ?_⟩ hcontra
      rw [hcons]
      exact hv.ne'

set_option maxHeartbeats 1000000 in
/-- C4: a setpoint stored while the full scale is unknown issues no device
write and is not lost: it returns ok with an empty trace and the clamped
value stored; and a subsequent poll cycle that reads a positive full scale
`F` re-issues the setpoint write as a percentage of `F` — and the poll
returns ok even if that re-issued write fails (the failure is swallowed). -/
theorem C4_deferred_setpoint (drv drv2 : Driver) (s : MState)
    (idx now now2 g : Nat) (v F : Rat) (u : String)
    (fr0 tmp0 tot0 : Option (Rat × String)) (valve0 : Option String)
    (hidx : idx < s.maxDevices) (hlen : s.devices.length = s.maxDevices)
    (hmfc : needMfcOk s idx = true)
    (hfs : (s.chan idx).full_scale_value = 0) (hv : 0 < v)
    (hgas : (s.chan idx).selected_gas = some g)
    (hr1 : drv2.readFlowRate g = some fr0)
    (hr2 : drv2.readDynamic = some tmp0)
    (hr3 : drv2.readFullScale g = some (some (F, u)))
    (hr4 : drv2.readTotalizer = some tot0)
    (hr5 : drv2.redVanne = some valve0)
    (hF : 0 < F) :
    (send_consigne drv s idx (.num v) now).1 = .ok () ∧
    (send_consigne drv s idx (.num v) now).2.2 = [] ∧
    (((send_consigne drv s idx (.num v) now).2.1).chan idx).consigne = v ∧
    (poll_one drv2 (send_consigne drv s idx (.num v) now).2.1 idx now2).1 =
      .ok () ∧
    Event.writeSetpoint ((if F < v then F else v) / F * 100) ∈
      (poll_one drv2 (send_consigne drv s idx (.num v) now).2.1
        idx now2).2.2 := by
  have hl : idx < s.devices.length := by rw [hlen]; exact hidx
  have hnv : ¬ v < 0 := not_lt.mpr hv.le
  have hA : send_consigne drv s idx (.num v) now =
      (.ok (), setChan s idx { s.chan idx with consigne := v }, []) := by
    unfold send_consigne
    simp only [hidx, ite_true, if_true, hmfc, floatParse]
    rw [if_neg hnv]
    simp [hfs]
  have hcs : (setChan s idx { s.chan idx with consigne := v }).chan idx =
      { s.chan idx with consigne := v } := chan_setChan_self _ _ _ hl
  have hB := poll_defer_write drv2
    (setChan s idx { s.chan idx with consigne := v }) idx now2 g v F u
    fr0 tmp0 tot0 valve0 hidx
    (by rw [setChan_length]; exact hl)
    (by unfold needMfcOk at hmfc ⊢
        rw [hcs]
        simpa using hmfc)
    (by rw [hcs]; exact hgas)
    (by rw [hcs])
    hv hF hr1 hr2 hr3 hr4 hr5
  exact ⟨by rw [hA], by rw [hA], by rw [hA, hcs], by rw [hA]; exact hB.1,
    by rw [hA]; exact hB.2⟩

/-- A driver that reports full scale 100 sccm and otherwise falsy reads. -/
def drvFS : Driver := { readFullScale := fun _ => some (some (100, "sccm")) }

/-- Witness for C4: setpoint 50 stored on `sA` (full scale unknown) with no
write; the next poll learns full scale 100 and issues `writeSetpoint 50`. -/
theorem C4_deferred_setpoint_witness :
    (send_consigne drv0 sA 0 (.num 50) 1).2.2 = [] ∧
    Event.writeSetpoint ((if (100 : Rat) < 50 then 100 else 50) / 100 * 100) ∈
      (poll_one drvFS (send_consigne drv0 sA 0 (.num 50) 1).2.1 0 2).2.2 :=
  ⟨(C4_deferred_setpoint drv0 drvFS sA 0 1 2 2 50 100 "sccm"
      none none none none (by decide) (by decide) (by decide) (by decide)
      (by decide) (by decide) rfl rfl rfl rfl rfl (by decide)).2.1,
    (C4_deferred_setpoint drv0 drvFS sA 0 1 2 2 50 100 "sccm"
      none none none none (by decide) (by decide) (by decide) (by decide)
      (by decide) (by decide) rfl rfl rfl rfl rfl (by decide)).2.2.2.2⟩

theorem apiWrap_snap (r : Except PyErr Unit × MState × List Event)
    (x : ApiRet) (s' : MState) (h : apiWrap r = (.ok x, s')) :
    x = .snap (snapshot s') := by
  rcases r with ⟨e, st, ev⟩
  cases e with
  | ok u =>
    simp only [apiWrap, Prod.mk.injEq, Except.ok.injEq] at h
    rw [← h.1, ← h.2]
  | error e => simp [apiWrap] at h

/-- C8 as stated is false on the code: `Api.set_tag` returns the bare
boolean `True`, not the snapshot dictionary, shown here at the concrete
state `sA`. -/
theorem C8_counterexample :
    (api_set_tag sA 0 "TAG").1 = .ok (.boolRet true) ∧
    ApiRet.boolRet true ≠ .snap (snapshot (api_set_tag sA 0 "TAG").2) := by
  decide

/-- C8 amended: every mutating control-surface call except `set_tag`
returns the fresh snapshot of the post-state whenever it completes without
raising; `set_tag` returns the bare boolean `True`. -/
theorem C8_returns_snapshot_amended (drv : Driver) (s : MState)
    (idx now : Nat) (openOk b ra : Bool) (v ts : PyVal) (a gn tg : String) :
    (∀ r s', api_connect openOk s = (.ok r, s') →
      r = .snap (snapshot s')) ∧
    (∀ r s', api_disconnect s = (.ok r, s') → r = .snap (snapshot s')) ∧
    (∀ r s', api_toggle drv s idx b now = (.ok r, s') →
      r = .snap (snapshot s')) ∧
    (∀ r s', api_set_consigne drv s idx v now = (.ok r, s') →
      r = .snap (snapshot s')) ∧
    (∀ r s', api_set_vanne drv s idx a = (.ok r, s') →
      r = .snap (snapshot s')) ∧
    (∀ r s', api_reset_total drv s idx = (.ok r, s') →
      r = .snap (snapshot s')) ∧
    (∀ r s', api_set_ramp drv s idx ra ts = (.ok r, s') →
      r = .snap (snapshot s')) ∧
    (∀ r s', api_select_gas drv s idx gn = (.ok r, s') →
      r = .snap (snapshot s')) ∧
    (∀ r s', api_set_tag s idx tg = (.ok r, s') → r = .boolRet true) := by
  refine ⟨?_, ?_, ?_, ?_, ?_, ?_, ?_, ?_, ?_⟩
  · intro r s' h
    exact apiWrap_snap _ _ _ h
  · intro r s' h
    simp only [api_disconnect, Prod.mk.injEq, Except.ok.injEq] at h
    rw [← h.1, ← h.2]
  · intro r s' h
    unfold api_toggle at h
    split at h <;> exact apiWrap_snap _ _ _ h
  · intro r s' h
    exact apiWrap_snap _ _ _ h
  · intro r s' h
    exact apiWrap_snap _ _ _ h
  · intro r s' h
    exact apiWrap_snap _ _ _ h
  · intro r s' h
    exact apiWrap_snap _ _ _ h
  · intro r s' h
    exact apiWrap_snap _ _ _ h
  · intro r s' h
    unfold api_set_tag at h
    rcases hq : set_tag s idx tg with ⟨e, st, ev⟩
    rw [hq] at h
    cases e with
    | ok u =>
      simp only [Prod.mk.injEq, Except.ok.injEq] at h
      exact h.1.symm
    | error e => simp at h

/-- Witness for C8 amended: `api_disconnect` on `sA` yields the snapshot of
its post-state, `api_set_tag` yields the boolean. -/
theorem C8_returns_snapshot_amended_witness :
    ApiRet.snap (snapshot (disconnect sA).1) =
      .snap (snapshot (api_disconnect sA).2) ∧
    ApiRet.boolRet true = .boolRet true :=
  ⟨(C8_returns_snapshot_amended drv0 sA 0 1 true true true (.num 0)
      (.num 1) "x" "g" "T").2.1 _ _ rfl,
    (C8_returns_snapshot_amended drv0 sA 0 1 true true true (.num 0)
      (.num 1) "x" "g" "T").2.2.2.2.2.2.2.2 (.boolRet true)
      (api_set_tag sA 0 "T").2 rfl⟩

/-- C9 as stated is false on the code: the action table is keyed by the
French strings, so `"Opening"` is a no-op — no device write, no state
change — rather than valve command 1. -/
theorem C9_counterexample :
    set_vanne drv0 sA 0 "Opening" = (.ok (), sA, []) ∧
    vanneCmd "Opening" = none := by
  decide

/-- C9 amended: `set_vanne` maps the French action strings
`"Ouverture"→1`, `"Fermeture"→2`, `"Régulation"→0`; any other string —
including the English "Opening"/"Closing"/"Regulating" — is a no-op (no
device write, no state change); when a write is issued, the valve label is
immediately read back into `valve_command`, defaulting to `"N/A"` when the
read-back yields nothing. -/
theorem C9_set_vanne_amended (drv : Driver) (s : MState) (idx : Nat)
    (a : String) (hidx : idx < s.maxDevices)
    (hmfc : needMfcOk s idx = true) :
    vanneCmd "Ouverture" = some 1 ∧ vanneCmd "Fermeture" = some 2 ∧
    vanneCmd "Régulation" = some 0 ∧ vanneCmd "Opening" = none ∧
    vanneCmd "Closing" = none ∧ vanneCmd "Regulating" = none ∧
    (vanneCmd a = none → set_vanne drv s idx a = (.ok (), s, [])) ∧
    (∀ cmd r, vanneCmd a = some cmd → drv.setVanne cmd = true →
      drv.redVanne = some r →
      set_vanne drv s idx a =
        (.ok (), setChan s idx { s.chan idx with valve_command := orNA r },
          [.setVanne cmd, .redVanne])) := by
  refine ⟨by decide, by decide, by decide, by decide, by decide, by decide,
    ?_, ?_⟩
  · intro hnone
    unfold set_vanne
    simp [hidx, hmfc, hnone]
  · intro cmd r hcmd hsv hrv
    unfold set_vanne
    simp [hidx, hmfc, hcmd, hsv, hrv]

/-- Witness for C9 amended: `"Ouverture"` on `sA` writes valve command 1 and
reads the label back (falsy read, so "N/A"); `"Opening"` is a no-op. -/
theorem C9_set_vanne_amended_witness :
    set_vanne drv0 sA 0 "Ouverture" =
      (.ok (), setChan sA 0 { sA.chan 0 with valve_command := orNA none },
        [.setVanne 1, .redVanne]) ∧
    set_vanne drv0 sA 0 "Regulating" = (.ok (), sA, []) :=
  ⟨(C9_set_vanne_amended drv0 sA 0 "Ouverture" (by decide)
      (by decide)).2.2.2.2.2.2.2 1 none rfl rfl rfl,
    (C9_set_vanne_amended drv0 sA 0 "Regulating" (by decide)
      (by decide)).2.2.2.2.2.2.1 rfl⟩
